import Mathlib

/-!
Verification development for the School-Darts scorekeeper.

The repository ships two presentation-layer files, `src/main.ts` (event
handlers and input validation) and `src/ui.ts` (rendering and messages).
The game-state engine (`src/state.ts`) and the data model (`src/models.ts`)
are referenced by both files but are not part of the sources available
here, so the engine is modelled from the specification document; every
such definition is marked `Modelled from the spec:` in its doc comment.
The presentation layer is translated statement by statement from the
TypeScript sources, with the DOM represented as an explicit state record
and every event handler as a function on a combined world state.
-/

namespace Darts

/-- Modelled from the spec (§3, `models.ts` is missing): a player has a
stable `id`, a display `name`, and a `legsWon` tally starting at 0. -/
structure Player where
  id : Nat
  name : String
  legsWon : Int
  deriving DecidableEq

/-- Modelled from the spec (§3, `models.ts` is missing): a turn records the
id of the acting player, the entered `points`, and the `runningScore`
remaining immediately after the turn is applied. -/
structure Turn where
  playerId : Nat
  points : Int
  runningScore : Int
  deriving DecidableEq

/-- Modelled from the spec (§3, `models.ts` is missing): a leg has a 1-based
`legNumber`, an ordered turn history, an `isFinished` flag, a `winner`
player-id set iff finished, and carries the countdown starting value
`gameType` (the `getRemainingScoreForPlayer(leg, playerId)` of the spec computes
`gameType` minus points from the leg alone, so the leg must carry it). -/
structure LegState where
  legNumber : Nat
  turns : List Turn
  isFinished : Bool
  winner : Option Nat
  gameType : Int
  deriving DecidableEq

/-- Modelled from the spec (§3, `models.ts` is missing): the root aggregate.
`players` is the ordered two-player list, `currentLeg` the active or
most-recently-finished leg (absent before the first leg starts). -/
structure SetState where
  gameType : Int
  maxLegs : Int
  players : List Player
  currentLeg : Option LegState
  isFinished : Bool
  winner : Option Nat
  deriving DecidableEq

/-- Modelled from the spec (§6, `state.ts` is missing): the engine-to-adapter
signal after `addTurn` is `\x7b legFinished: boolean, winner?: Player \x7d`. -/
structure AddTurnResult where
  legFinished : Bool
  winner : Option Player
  deriving DecidableEq

/-- Modelled from the spec (§4.1, `state.ts` is missing): `createEmptySet`
returns a Set with no players, `currentLeg` absent, `isFinished = false`.
The spec leaves the idle `gameType`/`maxLegs` values unspecified; the
defaults 501 and 5 are used here, and no claim depends on them. -/
def createEmptySet : SetState :=
  { gameType := 501, maxLegs := 5, players := [], currentLeg := none,
    isFinished := false, winner := none }

/-- Modelled from the spec (§4.1, `state.ts` is missing): `startNewSet`
constructs two fresh players with `legsWon = 0`, builds a Set with the given
`gameType`/`maxLegs`, and creates Leg #1 with no turns. -/
def startNewSet (player1Name player2Name : String) (gameType maxLegs : Int) :
    SetState :=
  { gameType := gameType
    maxLegs := maxLegs
    players := [⟨0, player1Name, 0⟩, ⟨1, player2Name, 0⟩]
    currentLeg := some ⟨1, [], false, none, gameType⟩
    isFinished := false
    winner := none }

/-- Sum of the points of the turns in `ts` belonging to player `pid`. -/
def sumPoints (ts : List Turn) (pid : Nat) : Int :=
  ((ts.filter (fun t => t.playerId = pid)).map Turn.points).sum

/-- Modelled from the spec (§4.1, `state.ts` is missing):
`getRemainingScoreForPlayer(leg, playerId)` returns `gameType` minus the sum
of the points of that player across all turns recorded so far in the leg. -/
def getRemainingScoreForPlayer (leg : LegState) (pid : Nat) : Int :=
  leg.gameType - sumPoints leg.turns pid

/-- Replace the player with id `pid` by `f` applied to it. -/
def updatePlayer (ps : List Player) (pid : Nat) (f : Player → Player) :
    List Player :=
  ps.map (fun p => if p.id = pid then f p else p)

/-- Modelled from the spec (§4.1, `state.ts` is missing): `addTurn`.
Preconditions (current leg exists, leg not finished, set not finished) fail
silently with a negative result and an unchanged set; the current player is
derived from `turns.length % 2`; the bust check rejects the turn when the
remaining score of the acting player minus `points` is negative, leaving the set
unchanged and communicating no leg finish and no winner; otherwise a Turn is
appended, and a running score of exactly 0 finishes the leg, credits the
winner, and finishes the set once `legsWon` reaches `maxLegs / 2 + 1`. -/
def addTurn (s : SetState) (points : Int) : SetState × AddTurnResult :=
  match s.currentLeg with
  | none => (s, ⟨false, none⟩)
  | some leg =>
    if leg.isFinished || s.isFinished then (s, ⟨false, none⟩)
    else
      match s.players.get? (leg.turns.length % 2) with
      | none => (s, ⟨false, none⟩)
      | some actor =>
        let remainingBefore := s.gameType - sumPoints leg.turns actor.id
        if remainingBefore - points < 0 then (s, ⟨false, none⟩)
        else
          let newTurn : Turn := ⟨actor.id, points, remainingBefore - points⟩
          let leg1 := { leg with turns := leg.turns ++ [newTurn] }
          if remainingBefore - points = 0 then
            let leg2 := { leg1 with isFinished := true, winner := some actor.id }
            let players1 :=
              updatePlayer s.players actor.id
                (fun p => { p with legsWon := p.legsWon + 1 })
            let actor1 : Player := { actor with legsWon := actor.legsWon + 1 }
            if actor.legsWon + 1 ≥ s.maxLegs / 2 + 1 then
              ({ s with
                  currentLeg := some leg2
                  players := players1
                  isFinished := true
                  winner := some actor.id },
               ⟨true, some actor1⟩)
            else
              ({ s with currentLeg := some leg2, players := players1 },
               ⟨true, some actor1⟩)
          else
            ({ s with currentLeg := some leg1 }, ⟨false, none⟩)

/-- Modelled from the spec (§4.1, `state.ts` is missing): `removeLastTurn`
pops the most recent turn when the current leg has at least one turn and
neither the leg nor the set is finished; otherwise a silent no-op. -/
def removeLastTurn (s : SetState) : SetState :=
  match s.currentLeg with
  | none => s
  | some leg =>
    if leg.turns.isEmpty || leg.isFinished || s.isFinished then s
    else { s with currentLeg := some { leg with turns := leg.turns.dropLast } }

/-- Modelled from the spec (§4.1, `state.ts` is missing): `canStartNextLeg`
is true iff `currentLeg` exists, is finished, and the set is not finished. -/
def canStartNextLeg (s : SetState) : Bool :=
  match s.currentLeg with
  | none => false
  | some leg => leg.isFinished && !s.isFinished

/-- Modelled from the spec (§4.1, `state.ts` is missing): `startNextLeg`
creates a fresh leg with the next leg number when `canStartNextLeg` holds;
otherwise a no-op. -/
def startNextLeg (s : SetState) : SetState :=
  match s.currentLeg with
  | none => s
  | some leg =>
    if leg.isFinished && !s.isFinished then
      { s with currentLeg := some ⟨leg.legNumber + 1, [], false, none, s.gameType⟩ }
    else s

/-- Modelled from the spec (§4.1, `state.ts` is missing): `resetSet` returns
to the empty-set state. -/
def resetSet (_s : SetState) : SetState :=
  createEmptySet

/-- Modelled from the spec (§4.1, `state.ts` is missing):
`getCurrentPlayerName` resolves the player whose turn is next under the
alternation rule (`turns.length % 2`) and returns their display name. The
spec requires a current, unfinished leg; outside that precondition the spec
leaves the behavior unspecified and the model returns the alternation-rule
name when it resolves and the empty string otherwise. -/
def getCurrentPlayerName (s : SetState) : String :=
  match s.currentLeg with
  | none => ""
  | some leg =>
    match s.players.get? (leg.turns.length % 2) with
    | none => ""
    | some p => p.name

/-- The state preconditions of `addTurn` as listed in spec §4.1: a current
leg exists, the leg is not finished, and the set is not finished. -/
def addTurnStatePrecond (s : SetState) : Bool :=
  match s.currentLeg with
  | none => false
  | some leg => !leg.isFinished && !s.isFinished

/-- Folding a list of entered point values through `addTurn`, keeping the
updated set state at each step. -/
def applyTurns (s : SetState) (ps : List Int) : SetState :=
  ps.foldl (fun acc p => (addTurn acc p).1) s

/-- The DOM elements of `ui.ts` (`UiElements`), as explicit state: the
text and class list of the message element, the four status texts, the two
table bodies as row lists (players rows are name/legsWon/remaining, turns
rows are index/player/points/runningScore), the three button disabled
flags, and the disabled flag, value, and focus/selection state of the
points input. -/
structure Dom where
  messageText : String
  messageClasses : List String
  statusGame : String
  statusMaxLegs : String
  statusLegNumber : String
  statusCurrentPlayer : String
  playersRows : List (String × String × String)
  turnsRows : List (String × String × String × String)
  addTurnDisabled : Bool
  undoTurnDisabled : Bool
  newLegDisabled : Bool
  pointsInputDisabled : Bool
  pointsInputValue : String
  pointsInputFocused : Bool
  pointsInputSelected : Bool
  deriving DecidableEq

/-- The combined mutable state of `main.ts`: the module-level `setState`
variable and the DOM. -/
structure World where
  game : SetState
  dom : Dom
  deriving DecidableEq

/-- Semantics of `DOMTokenList.add`: appends the class unless present. -/
def classListAdd (cls : List String) (c : String) : List String :=
  if c ∈ cls then cls else cls ++ [c]

/-- Semantics of `DOMTokenList.remove`: removes every occurrence. -/
def classListRemove (cls : List String) (c : String) : List String :=
  cls.filter (fun x => x ≠ c)

/-- Translation of `ui.ts` `showInfoMessage`: sets the text, removes the
warning and success classes, adds the info class. -/
def showInfoMessage (w : World) (text : String) : World :=
  { w with dom := { w.dom with
      messageText := text
      messageClasses :=
        classListAdd
          (classListRemove (classListRemove w.dom.messageClasses
            "message--warning") "message--success")
          "message--info" } }

/-- Translation of `ui.ts` `showWarningMessage`. -/
def showWarningMessage (w : World) (text : String) : World :=
  { w with dom := { w.dom with
      messageText := text
      messageClasses :=
        classListAdd
          (classListRemove (classListRemove w.dom.messageClasses
            "message--info") "message--success")
          "message--warning" } }

/-- Translation of `ui.ts` `showSuccessMessage`. -/
def showSuccessMessage (w : World) (text : String) : World :=
  { w with dom := { w.dom with
      messageText := text
      messageClasses :=
        classListAdd
          (classListRemove (classListRemove w.dom.messageClasses
            "message--info") "message--warning")
          "message--success" } }

/-- Translation of `ui.ts` `renderStatus`: placeholders when no leg has been
started, otherwise game type, best-of, leg number, and either the
"Set finished" text or the current player name. -/
def renderStatus (w : World) : World :=
  match w.game.currentLeg with
  | none =>
    { w with dom := { w.dom with
        statusGame := "–"
        statusMaxLegs := "–"
        statusLegNumber := "–"
        statusCurrentPlayer := "–" } }
  | some leg =>
    { w with dom := { w.dom with
        statusGame := toString w.game.gameType ++ " down"
        statusMaxLegs := "Best of " ++ toString w.game.maxLegs
        statusLegNumber := toString leg.legNumber
        statusCurrentPlayer :=
          if w.game.isFinished then "Set finished"
          else getCurrentPlayerName w.game } }

/-- Translation of `ui.ts` `renderPlayersTable`: clears the table body, then
(when a leg exists) appends a row per player with name, legs won, and the
remaining score from `getRemainingScoreForPlayer`. -/
def renderPlayersTable (w : World) : World :=
  match w.game.currentLeg with
  | none => { w with dom := { w.dom with playersRows := [] } }
  | some leg =>
    let rows := w.game.players.map (fun p =>
      (p.name, toString p.legsWon,
       toString (getRemainingScoreForPlayer leg p.id)))
    { w with dom := { w.dom with playersRows := rows } }

/-- Translation of `ui.ts` `renderTurnsTable`: clears the table body, then
(when a leg exists) appends a row per turn with 1-based index, the resolved
player name (or "?"), points, and running score. -/
def renderTurnsTable (w : World) : World :=
  match w.game.currentLeg with
  | none => { w with dom := { w.dom with turnsRows := [] } }
  | some leg =>
    let rows := leg.turns.enum.map (fun it =>
      (toString (it.1 + 1),
       match w.game.players.find? (fun p => p.id = it.2.playerId) with
       | some p => p.name
       | none => "?",
       toString it.2.points,
       toString it.2.runningScore))
    { w with dom := { w.dom with turnsRows := rows } }

/-- Translation of `ui.ts` `renderButtons`: disables the add-turn button
when there is no leg, the set is finished, or the leg is finished; the undo
button additionally when the leg has no turns; the new-leg button when there
is no leg, the set is finished, or the leg is not finished; the points input
mirrors the add-turn button. -/
def renderButtons (w : World) : World :=
  let leg := w.game.currentLeg
  let hasSet := leg.isSome
  let setFinished := w.game.isFinished
  let legFinished := match leg with | some l => l.isFinished | none => false
  let noTurns := match leg with | some l => l.turns.isEmpty | none => false
  let addDisabled := !hasSet || setFinished || legFinished
  { w with dom := { w.dom with
      addTurnDisabled := addDisabled
      undoTurnDisabled := !hasSet || setFinished || legFinished || noTurns
      newLegDisabled := !hasSet || setFinished || !legFinished
      pointsInputDisabled := addDisabled } }

/-- Translation of `ui.ts` `renderAll`: status, players table, turns table,
buttons, in order. -/
def renderAll (w : World) : World :=
  renderButtons (renderTurnsTable (renderPlayersTable (renderStatus w)))

/-- Semantics of the JavaScript `String.prototype.trim` builtin: removes
whitespace from both ends of the string. -/
def jsTrim (s : String) : String :=
  ⟨((s.data.dropWhile Char.isWhitespace).reverse.dropWhile
      Char.isWhitespace).reverse⟩

/-- Translation of `main.ts` `handleAddTurn`. The JavaScript builtin
`Number` combined with `Number.isInteger` is abstracted as the parameter
`jsInt`, where `jsInt s = some n` means `Number(s)` evaluates to the integer
`n` and `jsInt s = none` means it evaluates to `NaN` or a non-integer; the
`!Number.isInteger(points)` test of the source is the `none` branch and its range
test `points < 0 || points > 180` is the branch on `n`. -/
def handleAddTurn (jsInt : String → Option Int) (w : World) : World :=
  let rawValue := jsTrim w.dom.pointsInputValue
  if rawValue = "" then
    showWarningMessage w "Please enter the points for this turn."
  else
    match jsInt rawValue with
    | none =>
      showWarningMessage w "Points must be an integer between 0 and 180."
    | some points =>
      if points < 0 || points > 180 then
        showWarningMessage w "Points must be an integer between 0 and 180."
      else
        let res := addTurn w.game points
        let w1 : World := { w with game := res.1 }
        let w2 :=
          match res.2.legFinished, res.2.winner with
          | true, some winner =>
            let w2a := renderAll w1
            if w2a.game.isFinished then
              showSuccessMessage w2a
                ("Leg won by " ++ winner.name ++
                 ". The set is finished. Overall winner: " ++ winner.name ++ ".")
            else
              showSuccessMessage w2a
                ("Leg won by " ++ winner.name ++ ". Start the next leg when ready.")
          | false, _ =>
            let w2a :=
              if points = 0 then
                showInfoMessage w1 "No score this turn. Next player\x27s turn."
              else
                showInfoMessage w1 "Turn recorded. Next player\x27s turn."
            renderAll w2a
          | true, none =>
            showWarningMessage w1 "This score would make the remaining points negative."
        { w2 with dom := { w2.dom with pointsInputSelected := true } }

/-- Translation of the new-leg click handler in `main.ts`
`setupEventHandlers`: returns early unless `canStartNextLeg`, otherwise
starts the next leg, re-renders, shows the info message, and focuses the
points input. -/
def newLegClick (w : World) : World :=
  if canStartNextLeg w.game then
    let w1 : World := { w with game := startNextLeg w.game }
    let w2 := showInfoMessage (renderAll w1) "New leg started. Continue scoring."
    { w2 with dom := { w2.dom with pointsInputFocused := true } }
  else w

/-- The fields of the setup form as submitted: `FormData.get` yields the
string of the field or null for a missing field, modelled as `Option String`. -/
structure SetupForm where
  player1 : Option String
  player2 : Option String
  gameType : Option String
  maxLegs : Option String
  deriving DecidableEq

/-- Semantics of the JavaScript `x || d` defaulting on a `FormData.get`
result: null and the empty string are falsy, any other string is kept. -/
def jsOrDefault (v : Option String) (d : String) : String :=
  match v with
  | none => d
  | some s => if s = "" then d else s

/-- Translation of the setup-form submit handler in `main.ts`
`setupEventHandlers`: defaults blank names to "Player 1"/"Player 2" and
missing numeric fields to 501/5, starts the new set, re-renders, shows the
info message, and focuses the points input. The JavaScript builtin `Number`
on a present non-empty string is abstracted as the parameter `numberFn`;
`Number` applied to the numeric defaults is the number itself. -/
def setupSubmit (numberFn : String → Int) (f : SetupForm) (w : World) : World :=
  let player1 := jsOrDefault f.player1 "Player 1"
  let player2 := jsOrDefault f.player2 "Player 2"
  let gameTypeValue :=
    match f.gameType with
    | none => 501
    | some s => if s = "" then 501 else numberFn s
  let maxLegsValue :=
    match f.maxLegs with
    | none => 5
    | some s => if s = "" then 5 else numberFn s
  let w1 : World := { w with game := startNewSet player1 player2 gameTypeValue maxLegsValue }
  let w2 := showInfoMessage (renderAll w1) "Set started. Enter points for the current player."
  { w2 with dom := { w2.dom with pointsInputFocused := true } }

/-- Digit-list accumulator: `some` of the decimal value when every
character is a digit, `none` otherwise. -/
def decDigits : List Char → Nat → Option Nat
  | [], acc => some acc
  | c :: cs, acc =>
    if c.isDigit then decDigits cs (acc * 10 + (c.toNat - 48)) else none

/-- Concrete instance of the `Number`/`Number.isInteger` abstraction used
for closed evaluations: on non-empty strings of decimal digits it agrees
with the JavaScript builtin, elsewhere it reports no integer. -/
def decInt (s : String) : Option Int :=
  match s.data with
  | [] => none
  | cs => (decDigits cs 0).map Int.ofNat

/-- Invariant of a leg with respect to the countdown value `gt`: the points
of no player exceed `gt` in total, and every recorded turn has a
non-negative running score. -/
def LegInv (gt : Int) (leg : LegState) : Prop :=
  (∀ pid, sumPoints leg.turns pid ≤ gt) ∧ ∀ t ∈ leg.turns, 0 ≤ t.runningScore

/-- Invariant of a set state: its `gameType` is `gt` and its current leg,
when present, satisfies `LegInv gt`. -/
def SetInv (gt : Int) (s : SetState) : Prop :=
  s.gameType = gt ∧ ∀ leg, s.currentLeg = some leg → LegInv gt leg

/-- A concrete initial DOM for closed evaluations. -/
def initDom : Dom :=
  { messageText := ""
    messageClasses := []
    statusGame := ""
    statusMaxLegs := ""
    statusLegNumber := ""
    statusCurrentPlayer := ""
    playersRows := []
    turnsRows := []
    addTurnDisabled := false
    undoTurnDisabled := false
    newLegDisabled := false
    pointsInputDisabled := false
    pointsInputValue := ""
    pointsInputFocused := false
    pointsInputSelected := false }

/-- A set reached by real play (501, best of 5) in which player 0 has 40
points remaining and is the next to act: entering 45 now is a bust. -/
def bustSet : SetState :=
  applyTurns (startNewSet "Player 1" "Player 2" 501 5) [180, 0, 180, 0, 101, 0]

/-- The world in which the user submits "45" while `bustSet` is active. -/
def bustWorld : World :=
  { game := bustSet, dom := { initDom with pointsInputValue := "45" } }

/-- A set reached by real play (501, best of 5) with four turns recorded in
leg 1, player 0 having 141 remaining; the world has "141" entered, so the
next submission wins the leg while the set continues. -/
def legWinWorld : World :=
  { game := applyTurns (startNewSet "A" "B" 501 5) [180, 0, 180, 0],
    dom := { initDom with pointsInputValue := "141" } }

/-- A set reached by real play in which the current leg has just been won by
player 0 while the set continues (legs won 1 of the 3 needed). -/
def legWonSet : SetState :=
  applyTurns (startNewSet "A" "B" 501 5) [180, 0, 180, 0, 141]

/-! ## Helper lemmas -/

theorem showInfoMessage_game (w : World) (t : String) :
    (showInfoMessage w t).game = w.game := rfl

theorem showWarningMessage_game (w : World) (t : String) :
    (showWarningMessage w t).game = w.game := rfl

theorem showSuccessMessage_game (w : World) (t : String) :
    (showSuccessMessage w t).game = w.game := rfl

theorem renderStatus_game (w : World) : (renderStatus w).game = w.game := by
  unfold renderStatus
  cases w.game.currentLeg <;> rfl

theorem renderPlayersTable_game (w : World) :
    (renderPlayersTable w).game = w.game := by
  unfold renderPlayersTable
  cases w.game.currentLeg <;> rfl

theorem renderTurnsTable_game (w : World) :
    (renderTurnsTable w).game = w.game := by
  unfold renderTurnsTable
  cases w.game.currentLeg <;> rfl

theorem renderButtons_game (w : World) : (renderButtons w).game = w.game := rfl

theorem renderAll_game (w : World) : (renderAll w).game = w.game := by
  unfold renderAll
  rw [renderButtons_game, renderTurnsTable_game, renderPlayersTable_game,
    renderStatus_game]

theorem mem_classListAdd_self (cls : List String) (c : String) :
    c ∈ classListAdd cls c := by
  unfold classListAdd
  split
  · assumption
  · simp

theorem not_mem_classListAdd (cls : List String) (c x : String)
    (hx : x ∉ cls) (hne : x ≠ c) : x ∉ classListAdd cls c := by
  unfold classListAdd
  split
  · exact hx
  · simp [hx, hne]

theorem not_mem_classListRemove (cls : List String) (c : String) :
    c ∉ classListRemove cls c := by
  unfold classListRemove
  simp

theorem mem_of_mem_classListRemove {cls : List String} {c x : String}
    (h : x ∈ classListRemove cls c) : x ∈ cls := by
  unfold classListRemove at h
  exact (List.mem_filter.mp h).1

theorem not_mem_classListRemove_of_not_mem {cls : List String} {c x : String}
    (h : x ∉ cls) : x ∉ classListRemove cls c :=
  fun hmem => h (mem_of_mem_classListRemove hmem)

/-! ## Claim theorems -/

/-- C9: after any call to `showInfoMessage`, `showWarningMessage`, or
`showSuccessMessage`, the text of the message element equals the given text and
the element carries exactly the styling class matching the call among
`message--info`, `message--warning`, `message--success`, with the other two
removed, regardless of which classes were present before. -/
theorem showMessage_text_and_class_discipline (w : World) (t : String) :
    ((showInfoMessage w t).dom.messageText = t ∧
      "message--info" ∈ (showInfoMessage w t).dom.messageClasses ∧
      "message--warning" ∉ (showInfoMessage w t).dom.messageClasses ∧
      "message--success" ∉ (showInfoMessage w t).dom.messageClasses) ∧
    ((showWarningMessage w t).dom.messageText = t ∧
      "message--warning" ∈ (showWarningMessage w t).dom.messageClasses ∧
      "message--info" ∉ (showWarningMessage w t).dom.messageClasses ∧
      "message--success" ∉ (showWarningMessage w t).dom.messageClasses) ∧
    ((showSuccessMessage w t).dom.messageText = t ∧
      "message--success" ∈ (showSuccessMessage w t).dom.messageClasses ∧
      "message--info" ∉ (showSuccessMessage w t).dom.messageClasses ∧
      "message--warning" ∉ (showSuccessMessage w t).dom.messageClasses) := by
  refine ⟨⟨rfl, ?_, ?_, ?_⟩, ⟨rfl, ?_, ?_, ?_⟩, ⟨rfl, ?_, ?_, ?_⟩⟩
  · exact mem_classListAdd_self _ _
  · exact not_mem_classListAdd _ _ _
      (not_mem_classListRemove_of_not_mem (not_mem_classListRemove _ _))
      (by decide)
  · exact not_mem_classListAdd _ _ _ (not_mem_classListRemove _ _) (by decide)
  · exact mem_classListAdd_self _ _
  · exact not_mem_classListAdd _ _ _
      (not_mem_classListRemove_of_not_mem (not_mem_classListRemove _ _))
      (by decide)
  · exact not_mem_classListAdd _ _ _ (not_mem_classListRemove _ _) (by decide)
  · exact mem_classListAdd_self _ _
  · exact not_mem_classListAdd _ _ _
      (not_mem_classListRemove_of_not_mem (not_mem_classListRemove _ _))
      (by decide)
  · exact not_mem_classListAdd _ _ _ (not_mem_classListRemove _ _) (by decide)

/-- C5: after every `renderButtons` call, the add-turn button and the points
input are disabled if and only if the set has no current leg, the set is
finished, or the current leg is finished — that is, turn entry is enabled
exactly when the state preconditions of `addTurn` hold. -/
theorem renderButtons_turn_entry_matches_precond (w : World) :
    (renderButtons w).dom.addTurnDisabled = !addTurnStatePrecond w.game ∧
    (renderButtons w).dom.pointsInputDisabled = !addTurnStatePrecond w.game := by
  unfold renderButtons addTurnStatePrecond
  cases hleg : w.game.currentLeg with
  | none => simp
  | some leg => cases leg.isFinished <;> cases w.game.isFinished <;> simp

/-- C8: rendering never mutates game state: after any of `renderAll`,
`renderStatus`, `renderPlayersTable`, `renderTurnsTable`, or
`renderButtons` (including the pure queries `getRemainingScoreForPlayer`
and `getCurrentPlayerName` they call), the set state is unchanged. -/
theorem render_functions_preserve_game_state (w : World) :
    (renderStatus w).game = w.game ∧
    (renderPlayersTable w).game = w.game ∧
    (renderTurnsTable w).game = w.game ∧
    (renderButtons w).game = w.game ∧
    (renderAll w).game = w.game :=
  ⟨renderStatus_game w, renderPlayersTable_game w, renderTurnsTable_game w,
    renderButtons_game w, renderAll_game w⟩

/-- C6: for every set state, the new-leg button is enabled by
`renderButtons` exactly when `canStartNextLeg` is true, and the new-leg
click handler is a no-op unless `canStartNextLeg` returns true, in which
case the game state advances by exactly `startNextLeg`. -/
theorem newLeg_button_and_handler_match_canStartNextLeg (w : World) :
    (!(renderButtons w).dom.newLegDisabled) = canStartNextLeg w.game ∧
    (canStartNextLeg w.game = false → newLegClick w = w) ∧
    (canStartNextLeg w.game = true →
      (newLegClick w).game = startNextLeg w.game) := by
  refine ⟨?_, ?_, ?_⟩
  · unfold renderButtons canStartNextLeg
    cases hleg : w.game.currentLeg with
    | none => simp
    | some leg => cases leg.isFinished <;> cases w.game.isFinished <;> simp
  · intro h
    unfold newLegClick
    simp [h]
  · intro h
    unfold newLegClick
    simp [h, renderAll_game, showInfoMessage_game]

/-- Witness for C6 at concrete states: the empty set cannot start a leg and
the click is a no-op; a set whose leg was just won can, and the click
performs `startNextLeg`. -/
theorem newLeg_button_and_handler_inst :
    newLegClick { game := createEmptySet, dom := initDom } =
      { game := createEmptySet, dom := initDom } ∧
    (newLegClick { game := legWonSet, dom := initDom }).game =
      startNextLeg legWonSet := by
  constructor
  · exact (newLeg_button_and_handler_match_canStartNextLeg
      { game := createEmptySet, dom := initDom }).2.1 (by decide)
  · exact (newLeg_button_and_handler_match_canStartNextLeg
      { game := legWonSet, dom := initDom }).2.2 (by decide)

/-- C10: rendering is idempotent: `renderPlayersTable` and
`renderTurnsTable` clear their table body before appending rows, so calling
`renderAll` twice in succession leaves exactly the same UI state as calling
it once. -/
theorem renderAll_idempotent (w : World) :
    renderAll (renderAll w) = renderAll w := by
  obtain ⟨⟨gt, ml, players, cl, fin, win⟩, dom⟩ := w
  cases cl <;> rfl

/-- C3: for every string submitted as a turn: if the trimmed string is
empty, or does not parse to an integer under the `Number` semantics, or
parses to an integer outside [0, 180], the adapter shows a user-facing
warning and does not call `addTurn` (the game state is unchanged);
otherwise it calls `addTurn` with the parsed integer. -/
theorem handleAddTurn_input_validation (jsInt : String → Option Int)
    (w : World) :
    (jsTrim w.dom.pointsInputValue = "" →
      (handleAddTurn jsInt w).game = w.game ∧
      (handleAddTurn jsInt w).dom.messageText =
        "Please enter the points for this turn." ∧
      "message--warning" ∈ (handleAddTurn jsInt w).dom.messageClasses) ∧
    (jsTrim w.dom.pointsInputValue ≠ "" →
      jsInt (jsTrim w.dom.pointsInputValue) = none →
      (handleAddTurn jsInt w).game = w.game ∧
      (handleAddTurn jsInt w).dom.messageText =
        "Points must be an integer between 0 and 180." ∧
      "message--warning" ∈ (handleAddTurn jsInt w).dom.messageClasses) ∧
    (∀ n : Int, jsTrim w.dom.pointsInputValue ≠ "" →
      jsInt (jsTrim w.dom.pointsInputValue) = some n → (n < 0 ∨ 180 < n) →
      (handleAddTurn jsInt w).game = w.game ∧
      (handleAddTurn jsInt w).dom.messageText =
        "Points must be an integer between 0 and 180." ∧
      "message--warning" ∈ (handleAddTurn jsInt w).dom.messageClasses) ∧
    (∀ n : Int, jsTrim w.dom.pointsInputValue ≠ "" →
      jsInt (jsTrim w.dom.pointsInputValue) = some n → 0 ≤ n → n ≤ 180 →
      (handleAddTurn jsInt w).game = (addTurn w.game n).1) := by
  refine ⟨?_, ?_, ?_, ?_⟩
  · intro h
    unfold handleAddTurn
    simp only [h, if_pos rfl]
    exact ⟨rfl, rfl, mem_classListAdd_self _ _⟩
  · intro hne hj
    unfold handleAddTurn
    simp only [if_neg hne, hj]
    exact ⟨rfl, rfl, mem_classListAdd_self _ _⟩
  · intro n hne hj hout
    unfold handleAddTurn
    simp only [if_neg hne, hj]
    have hcond : (decide (n < 0) || decide (n > 180)) = true := by
      rcases hout with h | h
      · simp [h]
      · simp [h]
    simp only [hcond, if_pos rfl]
    exact ⟨rfl, rfl, mem_classListAdd_self _ _⟩
  · intro n hne hj h0 h180
    unfold handleAddTurn
    simp only [if_neg hne, hj]
    have hcond : (decide (n < 0) || decide (n > 180)) = false := by
      have h1 : ¬(n < 0) := by omega
      have h2 : ¬(n > 180) := by omega
      simp [h1, h2]
    simp only [hcond]
    rcases hr : addTurn w.game n with ⟨s2, fin, win⟩
    simp only [hr]
    cases fin <;> cases win <;>
      simp [renderAll_game, showInfoMessage_game, showSuccessMessage_game,
        showWarningMessage_game] <;>
      split <;>
      simp [renderAll_game, showInfoMessage_game, showSuccessMessage_game]

/-- Witness for C3 at concrete inputs: an empty submission leaves the state
unchanged, "abc" and "300" produce the range warning, and "45" on a fresh
501 set applies `addTurn` with 45. -/
theorem handleAddTurn_input_validation_inst :
    (handleAddTurn decInt { game := createEmptySet, dom := initDom }).game =
      createEmptySet ∧
    (handleAddTurn decInt
      { game := createEmptySet
        dom := { initDom with pointsInputValue := "abc" } }).dom.messageText =
      "Points must be an integer between 0 and 180." ∧
    (handleAddTurn decInt
      { game := createEmptySet
        dom := { initDom with pointsInputValue := "300" } }).dom.messageText =
      "Points must be an integer between 0 and 180." ∧
    (handleAddTurn decInt
      { game := startNewSet "A" "B" 501 5
        dom := { initDom with pointsInputValue := "45" } }).game =
      (addTurn (startNewSet "A" "B" 501 5) 45).1 := by
  refine ⟨?_, ?_, ?_, ?_⟩
  · exact ((handleAddTurn_input_validation decInt
      { game := createEmptySet, dom := initDom }).1 (by decide)).1
  · exact ((handleAddTurn_input_validation decInt
        { game := createEmptySet
          dom := { initDom with pointsInputValue := "abc" } }).2.1
      (by decide) (by decide)).2.1
  · exact ((handleAddTurn_input_validation decInt
      { game := createEmptySet
        dom := { initDom with pointsInputValue := "300" } }).2.2.1 300
      (by decide) (by decide) (by norm_num)).2.1
  · exact (handleAddTurn_input_validation decInt
      { game := startNewSet "A" "B" 501 5
        dom := { initDom with pointsInputValue := "45" } }).2.2.2 45
      (by decide) (by decide) (by norm_num) (by norm_num)

/-- C7: on every set-start form submission, a blank player1 name defaults
to "Player 1", a blank player2 name defaults to "Player 2", an absent
gameType defaults to 501, an absent maxLegs defaults to 5, and
`startNewSet` is called with exactly these four values. -/
theorem setupSubmit_defaults (numberFn : String → Int) (f : SetupForm)
    (w : World) :
    ∃ a b g m, (setupSubmit numberFn f w).game = startNewSet a b g m ∧
      ((f.player1 = none ∨ f.player1 = some "") → a = "Player 1") ∧
      ((f.player2 = none ∨ f.player2 = some "") → b = "Player 2") ∧
      (f.gameType = none → g = 501) ∧
      (f.maxLegs = none → m = 5) := by
  refine ⟨jsOrDefault f.player1 "Player 1", jsOrDefault f.player2 "Player 2",
    ?_, ?_, ?_, ?_, ?_, ?_, ?_⟩
  · exact match f.gameType with
      | none => 501
      | some s => if s = "" then 501 else numberFn s
  · exact match f.maxLegs with
      | none => 5
      | some s => if s = "" then 5 else numberFn s
  · unfold setupSubmit
    rw [show ∀ v : World, ({ v with
        dom := { v.dom with pointsInputFocused := true } } : World).game = v.game
      from fun _ => rfl]
    rw [showInfoMessage_game, renderAll_game]
  · rintro (h | h) <;> simp [jsOrDefault, h]
  · rintro (h | h) <;> simp [jsOrDefault, h]
  · intro h
    simp [h]
  · intro h
    simp [h]

/-- Witness for C7: submitting the form with every field absent starts a
501, best-of-5 set between "Player 1" and "Player 2". -/
theorem setupSubmit_defaults_inst :
    ∃ a b g m,
      (setupSubmit (fun _ => 0) ⟨none, none, none, none⟩
          { game := createEmptySet, dom := initDom }).game =
        startNewSet a b g m ∧
      ((SetupForm.player1 ⟨none, none, none, none⟩ = none ∨
          SetupForm.player1 ⟨none, none, none, none⟩ = some "") →
        a = "Player 1") ∧
      ((SetupForm.player2 ⟨none, none, none, none⟩ = none ∨
          SetupForm.player2 ⟨none, none, none, none⟩ = some "") →
        b = "Player 2") ∧
      (SetupForm.gameType ⟨none, none, none, none⟩ = none → g = 501) ∧
      (SetupForm.maxLegs ⟨none, none, none, none⟩ = none → m = 5) :=
  setupSubmit_defaults (fun _ => 0) ⟨none, none, none, none⟩
    { game := createEmptySet, dom := initDom }

/-- C4 (counterexample): the claim that `renderStatus` queries
`getCurrentPlayerName` only with an unfinished current leg is false.
Submitting "141" from a reachable 501 state with four turns recorded wins
the leg while the set continues; the adapter re-renders, and `renderStatus`
evaluates `getCurrentPlayerName` on the finished leg (the status line shows
its value, the alternation-rule name "B"), with the set not finished. -/
theorem renderStatus_consults_query_on_finished_leg :
    (handleAddTurn decInt legWinWorld).game.currentLeg.map LegState.isFinished
      = some true ∧
    (handleAddTurn decInt legWinWorld).game.isFinished = false ∧
    (handleAddTurn decInt legWinWorld).dom.statusCurrentPlayer =
      getCurrentPlayerName (handleAddTurn decInt legWinWorld).game ∧
    getCurrentPlayerName (handleAddTurn decInt legWinWorld).game = "B" := by
  decide

/-- C4 (amended): at its call site in `renderStatus`, `getCurrentPlayerName`
is evaluated exactly when a current leg exists and the set is not finished
(the status line then equals its value); the current leg may then already be
finished, so the stated precondition of the query does not always hold there. -/
theorem renderStatus_query_guard (w : World)
    (hleg : w.game.currentLeg.isSome = true)
    (hfin : w.game.isFinished = false) :
    (renderStatus w).dom.statusCurrentPlayer = getCurrentPlayerName w.game := by
  unfold renderStatus
  cases hc : w.game.currentLeg with
  | none => rw [hc] at hleg; simp at hleg
  | some leg => simp [hfin]

/-- Witness for C4 (amended) at the rendered post-win state: a current leg
exists, the set is not finished, and the status line carries the value of
the query. -/
theorem renderStatus_query_guard_inst :
    (renderStatus { game := legWonSet, dom := initDom }).dom.statusCurrentPlayer
      = getCurrentPlayerName legWonSet :=
  renderStatus_query_guard { game := legWonSet, dom := initDom }
    (by decide) (by decide)

/-- C1: evaluation of the adapter at a concrete bust. In `bustWorld`
(player 0 has 40 remaining, "45" entered), the engine rejects the turn —
the set is unchanged and the result communicates no leg finish and no
winner — yet `handleAddTurn` surfaces the info message
"Turn recorded. Next player\x27s turn." instead of the bust warning: with a
`legFinished = false` result, the warning branch
(`result.legFinished && !result.winner`) is unreachable. -/
theorem bust_rejected_but_info_message_shown :
    (addTurn bustSet 45).1 = bustSet ∧
    (addTurn bustSet 45).2 = { legFinished := false, winner := none } ∧
    (handleAddTurn decInt bustWorld).game = bustSet ∧
    (handleAddTurn decInt bustWorld).dom.messageText =
      "Turn recorded. Next player\x27s turn." ∧
    "message--info" ∈ (handleAddTurn decInt bustWorld).dom.messageClasses ∧
    (handleAddTurn decInt bustWorld).dom.messageText ≠
      "This score would make the remaining points negative." := by
  decide


theorem sumPoints_append (ts : List Turn) (t : Turn) (pid : Nat) :
    sumPoints (ts ++ [t]) pid =
      sumPoints ts pid + (if t.playerId = pid then t.points else 0) := by
  unfold sumPoints
  rw [List.filter_append]
  by_cases h : t.playerId = pid
  · simp [h]
  · simp [h]

theorem addTurn_preserves_SetInv {gt : Int} (s : SetState) (p : Int)
    (h : SetInv gt s) : SetInv gt (addTurn s p).1 := by
  obtain ⟨hgt, hinv⟩ := h
  subst hgt
  unfold addTurn
  cases hc : s.currentLeg with
  | none => exact ⟨rfl, hinv⟩
  | some leg =>
    dsimp only
    obtain ⟨hsum, hrun⟩ := hinv leg hc
    by_cases hfin : (leg.isFinished || s.isFinished) = true
    · rw [if_pos hfin]
      exact ⟨rfl, hinv⟩
    · rw [if_neg hfin]
      cases hget : s.players.get? (leg.turns.length % 2) with
      | none => exact ⟨rfl, hinv⟩
      | some actor =>
        dsimp only
        by_cases hbust : s.gameType - sumPoints leg.turns actor.id - p < 0
        · rw [if_pos hbust]
          exact ⟨rfl, hinv⟩
        · rw [if_neg hbust]
          push_neg at hbust
          have hkey : ∀ pid, sumPoints (leg.turns ++
              [⟨actor.id, p, s.gameType - sumPoints leg.turns actor.id - p⟩]) pid
              ≤ s.gameType := by
            intro pid
            rw [sumPoints_append]
            by_cases hp : actor.id = pid
            · subst hp
              rw [if_pos rfl]
              linarith [hsum actor.id]
            · simp only [if_neg hp]
              simpa using hsum pid
          have hrun2 : ∀ t ∈ leg.turns ++
              [⟨actor.id, p, s.gameType - sumPoints leg.turns actor.id - p⟩],
              (0:Int) ≤ t.runningScore := by
            intro t ht
            rcases List.mem_append.mp ht with hmem | hmem
            · exact hrun t hmem
            · rw [List.mem_singleton] at hmem
              subst hmem
              exact hbust
          by_cases hzero : s.gameType - sumPoints leg.turns actor.id - p = 0
          · rw [if_pos hzero]
            by_cases hthr : actor.legsWon + 1 ≥ s.maxLegs / 2 + 1
            · rw [if_pos hthr]
              refine ⟨rfl, ?_⟩
              intro leg2 hl2
              cases Option.some.inj hl2
              exact ⟨hkey, hrun2⟩
            · rw [if_neg hthr]
              refine ⟨rfl, ?_⟩
              intro leg2 hl2
              cases Option.some.inj hl2
              exact ⟨hkey, hrun2⟩
          · rw [if_neg hzero]
            refine ⟨rfl, ?_⟩
            intro leg2 hl2
            cases Option.some.inj hl2
            exact ⟨hkey, hrun2⟩


theorem startNewSet_SetInv (n1 n2 : String) (gt ml : Int) (hgt : 0 ≤ gt) :
    SetInv gt (startNewSet n1 n2 gt ml) := by
  refine ⟨rfl, ?_⟩
  intro leg hl
  cases Option.some.inj hl
  constructor
  · intro pid
    simpa [sumPoints] using hgt
  · intro t ht
    simp at ht

theorem applyTurns_SetInv {gt : Int} (s : SetState) (ps : List Int)
    (h : SetInv gt s) : SetInv gt (applyTurns s ps) := by
  induction ps generalizing s with
  | nil => exact h
  | cons p ps ih => exact ih _ (addTurn_preserves_SetInv s p h)

/-- C2: for every sequence of valid turns applied through `addTurn` from a
fresh set and for every player, the sum of the turn points of that player
within the current leg never exceeds `gameType`, and every recorded Turn
has a non-negative `runningScore`. -/
theorem addTurn_sequences_respect_bust_invariant (n1 n2 : String)
    (gt ml : Int) (ps : List Int) (hgt : 0 ≤ gt)
    (hval : ∀ p ∈ ps, 0 ≤ p ∧ p ≤ 180) :
    ∀ leg, (applyTurns (startNewSet n1 n2 gt ml) ps).currentLeg = some leg →
      (∀ pid, sumPoints leg.turns pid ≤ gt) ∧
      ∀ t ∈ leg.turns, 0 ≤ t.runningScore := by
  intro leg hl
  exact (applyTurns_SetInv _ ps (startNewSet_SetInv n1 n2 gt ml hgt)).2 leg hl

/-- Witness for C2: the five-turn winning sequence 180/0/180/0/141 on a 501
set yields a leg on which both conclusions hold. -/
theorem addTurn_sequences_respect_bust_invariant_inst :
    (∀ pid, sumPoints (LegState.turns ⟨1,
        [⟨0, 180, 321⟩, ⟨1, 0, 501⟩, ⟨0, 180, 141⟩, ⟨1, 0, 501⟩, ⟨0, 141, 0⟩],
        true, some 0, 501⟩) pid ≤ 501) ∧
    ∀ t ∈ LegState.turns ⟨1,
        [⟨0, 180, 321⟩, ⟨1, 0, 501⟩, ⟨0, 180, 141⟩, ⟨1, 0, 501⟩, ⟨0, 141, 0⟩],
        true, some 0, 501⟩, 0 ≤ t.runningScore :=
  addTurn_sequences_respect_bust_invariant "A" "B" 501 5 [180, 0, 180, 0, 141]
    (by norm_num) (by decide) _ (by decide)

end Darts
